import Mathlib

/-!
# WeatherService of the trip planner's weather dashboard

Shallow embedding of the class `WeatherService` of
`src/components/weather/WeatherDashboard.jsx`.

Modelling conventions.

* JavaScript numbers are binary64 values, held as the rationals they denote.
  Every arithmetic operator of the source is the exact operation followed by
  `toDouble`, the rounding to the nearest binary64 value with ties to even
  (53-bit significand, subnormals below `2 ^ -1022`): `fadd`, `fsub`, `fmul`
  and `fdiv`.  A decimal literal of the source that is not a binary64 value
  (`0.6`, `1.3`) denotes `toDouble` of it.  Overflow to `Infinity`, `NaN` and
  the sign of zero are not represented: with a finite temperature and a sine
  in `[-1, 1]` no operation of the service overflows, and the sign of zero is
  not observable in the integers it produces.
* `Math.round` is `jsRound`: nearest integer, halves rounded up, i.e.
  `⌊x + 1/2⌋`, computed exactly on the binary64 argument; its results are `ℤ`.
* `Math.PI` and `Math.sin` belong to the host, not to the repository; they are
  the fields of a `JSMath` value passed to `formatMonthlyWeather`.  What the
  proofs use of the host is stated as a hypothesis where it is used.
* `new Date().getMonth()` is the argument `currentMonth`.
* `Math.random()` is the argument `random`: `random k` is the value returned by
  the `k`-th call made during one run of `formatMonthlyWeather`.  The callback
  of `months.forEach` calls it exactly once, so the call made for the month of
  index `k` is the `k`-th one.
* `fetch` is replaced by its outcome: a `Response` holds the `ok` flag and the
  decoded JSON body.  A thrown `Error` is `Except.error` of its message.
-/

namespace WeatherService

/-! ## Data model -/

/-- The two members of the JavaScript `Math` object that the service reads. -/
structure JSMath where
  /-- The constant `Math.PI`. -/
  PI : ℚ
  /-- The function `Math.sin`. -/
  sin : ℚ → ℚ

/-- JavaScript `Math.round`: the nearest integer, a half being rounded up. -/
def jsRound (x : ℚ) : ℤ := ⌊x + 1 / 2⌋

/-- Rounding to the nearest integer, a tie going to the even neighbour. -/
def roundHalfEven (z : ℚ) : ℤ :=
  if z - ⌊z⌋ < 1 / 2 then ⌊z⌋
  else if 1 / 2 < z - ⌊z⌋ then ⌊z⌋ + 1
  else if ⌊z⌋ % 2 = 0 then ⌊z⌋ else ⌊z⌋ + 1

/-- The binary exponent of the binade of `x`, not below the exponent `-1022`
of the smallest normal binary64 numbers. -/
def binadeExp (x : ℚ) : ℤ := max (Int.log 2 |x|) (-1022)

/-- The unit in the last place of binary64 at `x`: 52 fraction bits below the
binade exponent. -/
def ulp (x : ℚ) : ℚ := (2 : ℚ) ^ (binadeExp x - 52)

/-- The binary64 value nearest to `x`, ties to even: the result every
JavaScript arithmetic operator rounds its exact result to. -/
def toDouble (x : ℚ) : ℚ := roundHalfEven (x / ulp x) * ulp x

/-- JavaScript `a + b` on numbers. -/
def fadd (a b : ℚ) : ℚ := toDouble (a + b)

/-- JavaScript `a - b` on numbers. -/
def fsub (a b : ℚ) : ℚ := toDouble (a - b)

/-- JavaScript `a * b` on numbers. -/
def fmul (a b : ℚ) : ℚ := toDouble (a * b)

/-- JavaScript `a / b` on numbers. -/
def fdiv (a b : ℚ) : ℚ := toDouble (a / b)

/-- The object returned by `getCoordinates`. -/
structure Coords where
  lat : ℚ
  lon : ℚ
  name : String
  country : String

/-- One element of the array answered by the geocoding endpoint. -/
structure GeoMatch where
  lat : ℚ
  lon : ℚ
  name : String
  country : String

/-- The member `main` of the current-weather body. -/
structure MainData where
  temp : ℚ

/-- The body answered by the current-weather endpoint (`currentData`). -/
structure CurrentData where
  main : MainData

/-- What the service looks at in the value `fetch` resolves to. -/
structure Response (α : Type) where
  /-- The flag `response.ok`. -/
  ok : Bool
  /-- The value of `await response.json()`. -/
  json : α

/-- One element of `monthlyData`. -/
structure MonthOutlook where
  month : String
  temp : String
  minTemp : ℤ
  maxTemp : ℤ
  icon : String
  aqi : ℤ
  aqiLabel : String
  aqiColor : String
  isCurrentMonth : Bool

/-- The object returned by `formatMonthlyWeather`. -/
structure WeatherData where
  location : String
  monthlyData : List MonthOutlook
  bestTimeToVisit : String

/-- One element of the array returned by `getWeatherRecommendations`. -/
structure Recommendation where
  type : String
  message : String
deriving DecidableEq

/-! ## Operations -/

/-- Method `getSeasonalIcon(monthIndex, latitude)`. -/
def getSeasonalIcon (monthIndex : ℕ) (latitude : ℚ) : String :=
  let isNorthernHemisphere : Bool := decide (latitude > 0)
  let seasonIndex := if !isNorthernHemisphere then (monthIndex + 6) % 12 else monthIndex
  if seasonIndex ≥ 2 ∧ seasonIndex ≤ 4 then "sun"
  else if seasonIndex ≥ 5 ∧ seasonIndex ≤ 7 then "rain"
  else if seasonIndex ≥ 8 ∧ seasonIndex ≤ 10 then "partlyCloud"
  else "sun"

/-- Method `getAqiColor(aqi)`. -/
def getAqiColor (aqi : ℤ) : String :=
  if aqi ≤ 50 then "bg-green-500"
  else if aqi ≤ 100 then "bg-yellow-500"
  else if aqi ≤ 150 then "bg-orange-500"
  else if aqi ≤ 200 then "bg-red-500"
  else "bg-purple-500"

/-- The predicate given to `monthlyData.filter` in `getBestTimeToVisit`. -/
def isGoodMonth (month : MonthOutlook) : Bool :=
  let avgTemp : ℚ := ((month.minTemp : ℚ) + (month.maxTemp : ℚ)) / 2
  decide (avgTemp ≥ 18) && decide (avgTemp ≤ 32) && decide (month.aqi ≤ 100)

/-- Method `getBestTimeToVisit(monthlyData)`.  The array reads `goodMonths[0]` and
`goodMonths[goodMonths.length - 1]` of the last line are made on a non-empty
`goodMonths`, where neither is `undefined`; the last branch is never taken. -/
def getBestTimeToVisit (monthlyData : List MonthOutlook) : String :=
  let goodMonths := monthlyData.filter isGoodMonth
  if goodMonths.length = 0 then "Year-round"
  else
    match goodMonths[0]?, goodMonths[goodMonths.length - 1]? with
    | some first, some last =>
      if goodMonths.length = 1 then first.month else first.month ++ " - " ++ last.month
    | _, _ => "Year-round"

/-- The value of `baseAqi` when it is rounded: the sample `r` of `Math.random()`
scaled into `[60, 140)`, then the two seasonal `if`s in source order. -/
def baseAqi (index : ℕ) (r : ℚ) : ℚ :=
  let baseAqi := fadd 60 (fmul r 80)
  let baseAqi := if index ≥ 5 ∧ index ≤ 8 then fmul baseAqi (toDouble 0.6) else baseAqi
  let baseAqi := if index ≥ 11 ∨ index ≤ 1 then fmul baseAqi (toDouble 1.3) else baseAqi
  baseAqi

/-- The object pushed by the callback of `months.forEach` for `(month, index)`. -/
def monthEntry (M : JSMath) (random : ℕ → ℚ) (currentMonth : ℕ)
    (currentData : CurrentData) (coords : Coords) (month : String) (index : ℕ) :
    MonthOutlook :=
  let tempVariation :=
    fmul (M.sin (fdiv (fmul (fsub (index : ℚ) (currentMonth : ℚ)) M.PI) 6)) 8
  let currentTemp := currentData.main.temp
  let minTemp := jsRound (fsub (fadd currentTemp tempVariation) 4)
  let maxTemp := jsRound (fadd (fadd currentTemp tempVariation) 6)
  let baseAqi := baseAqi index (random index)
  { month := month
    temp := toString minTemp ++ "/" ++ toString maxTemp ++ "Â°C"
    minTemp := minTemp
    maxTemp := maxTemp
    icon := getSeasonalIcon index coords.lat
    aqi := jsRound baseAqi
    aqiLabel := "AQI " ++ toString (jsRound baseAqi)
    aqiColor := getAqiColor (jsRound baseAqi)
    isCurrentMonth := decide (index = currentMonth) }

/-- The array `months` of `formatMonthlyWeather`. -/
def months : List String :=
  ["Jan", "Feb", "Mar", "Apr", "May", "Jun", "Jul", "Aug", "Sep", "Oct", "Nov", "Dec"]

/-- Method `formatMonthlyWeather(currentData, coords)`; `months.forEach` pushing one
object per element is the map of the callback over the indexed array. -/
def formatMonthlyWeather (M : JSMath) (random : ℕ → ℚ) (currentMonth : ℕ)
    (currentData : CurrentData) (coords : Coords) : WeatherData :=
  let monthlyData := months.enum.map fun (index, month) =>
    monthEntry M random currentMonth currentData coords month index
  { location := coords.name ++ ", " ++ coords.country
    monthlyData := monthlyData
    bestTimeToVisit := getBestTimeToVisit monthlyData }

/-- The warning pushed when `currentMonth.aqi > 150`. -/
def pollutionWarning : Recommendation :=
  { type := "warning"
    message := "High air pollution levels. Consider wearing a mask outdoors and limiting outdoor activities." }

/-- The entry pushed when `currentMonth.maxTemp > 35`. -/
def heatInfo : Recommendation :=
  { type := "info"
    message := "Very hot weather expected. Stay hydrated, wear sunscreen, and avoid direct sunlight during peak hours." }

/-- The entry pushed when `currentMonth.icon === 'rain'`. -/
def monsoonInfo : Recommendation :=
  { type := "info"
    message := "Monsoon season. Pack rain gear, waterproof bags, and check weather before outdoor activities." }

/-- The entry pushed when `currentMonth.minTemp < 10`. -/
def coldInfo : Recommendation :=
  { type := "info"
    message := "Cool temperatures expected. Pack warm clothing and layers for comfort." }

/-- Method `getWeatherRecommendations(weatherData)`: `find` is `List.find?`, each
`push` appends one element. -/
def getWeatherRecommendations (weatherData : WeatherData) : List Recommendation :=
  let recommendations : List Recommendation := []
  match weatherData.monthlyData.find? (fun m => m.isCurrentMonth) with
  | some currentMonth =>
    let recommendations :=
      if currentMonth.aqi > 150 then recommendations ++ [pollutionWarning] else recommendations
    let recommendations :=
      if currentMonth.maxTemp > 35 then recommendations ++ [heatInfo] else recommendations
    let recommendations :=
      if currentMonth.icon = "rain" then recommendations ++ [monsoonInfo] else recommendations
    let recommendations :=
      if currentMonth.minTemp < 10 then recommendations ++ [coldInfo] else recommendations
    recommendations
  | none => recommendations

/-- Method `getCoordinates(location)` on the response of the geocoding request.  The
`catch` block logs and rethrows, so an error leaves with the message it was
thrown with.  Reading `data[0]` of an array without a first element is the
`TypeError` of the last branch. -/
def getCoordinates (response : Response (List GeoMatch)) : Except String Coords :=
  if !response.ok then Except.error "Failed to fetch coordinates"
  else
    let data := response.json
    if data.length = 0 then Except.error "Location not found"
    else
      match data[0]? with
      | some d => Except.ok { lat := d.lat, lon := d.lon, name := d.name, country := d.country }
      | none => Except.error "Cannot read properties of undefined"

/-- Method `getMonthlyWeather(location)` on the responses of its two requests; the
second request is only made, and its response only looked at, once
`getCoordinates` has returned.  The `catch` block logs and rethrows. -/
def getMonthlyWeather (M : JSMath) (random : ℕ → ℚ) (currentMonth : ℕ)
    (geoResponse : Response (List GeoMatch)) (response : Response CurrentData) :
    Except String WeatherData :=
  match getCoordinates geoResponse with
  | Except.error error => Except.error error
  | Except.ok coords =>
    if !response.ok then Except.error "Failed to fetch weather data"
    else
      let currentData := response.json
      Except.ok (formatMonthlyWeather M random currentMonth currentData coords)

/-! ## Samples used to evaluate the model -/

/-- The binary64 sine at the arguments `k * Math.PI / 6`, `k = 0 .. 11`, as the
service computes them: pairs of an argument and the value there. -/
def sineTable : List (ℚ × ℚ) :=
  [(0, 0),
   (4716158501352293 / 9007199254740992, 9007199254740991 / 18014398509481984),
   (4716158501352293 / 4503599627370496, 3900231685776981 / 4503599627370496),
   (884279719003555 / 562949953421312, 1),
   (4716158501352293 / 2251799813685248, 7800463371553963 / 9007199254740992),
   (5895198126690367 / 2251799813685248, 9007199254740991 / 18014398509481984),
   (884279719003555 / 281474976710656, 4967757600021511 / 40564819207303340847894502572032),
   (8253277377366513 / 2251799813685248, -9007199254740987 / 18014398509481984),
   (4716158501352293 / 1125899906842624, -975057921444245 / 1125899906842624),
   (2652839157010665 / 562949953421312, -1),
   (5895198126690367 / 1125899906842624, -3900231685776981 / 4503599627370496),
   (6484717939359403 / 1125899906842624, -1125899906842625 / 2251799813685248)]

/-- The tabulated sine at `x`; 0 at an argument that is not in the table. -/
def sineAt (x : ℚ) : ℚ :=
  match sineTable.find? (fun entry => decide (entry.1 = x)) with
  | some entry => entry.2
  | none => 0

/-- A host `Math` for evaluation: the binary64 value of `Math.PI` and, for
`Math.sin`, the odd function that is `sineAt` on the non-negative arguments. -/
def sampleMath : JSMath :=
  { PI := 884279719003555 / 281474976710656
    sin := fun x => if x < 0 then -sineAt (-x) else sineAt x }

/-- A current-weather body reporting 25 degrees. -/
def sampleData : CurrentData := { main := { temp := 25 } }

/-- Coordinates in the northern hemisphere. -/
def sampleCoords : Coords := { lat := 20, lon := 73, name := "Pune", country := "IN" }

/-- The binary64 reading `0.49999999999999994`, one unit in the last place
below one half. -/
def belowHalf : ℚ := 9007199254740991 / 18014398509481984

/-- The binary64 reading `3.4999999999999996`, one unit in the last place
below three and a half. -/
def belowThreeAndHalf : ℚ := 7881299347898367 / 2251799813685248

/-- The binary64 sample `0.6971153846153846` of `Math.random()`. -/
def sampleR : ℚ := 1569764293194043 / 2251799813685248

/-- A forecast result given by its months. -/
def forecastOf (monthlyData : List MonthOutlook) : WeatherData :=
  { location := "Pune, IN", monthlyData := monthlyData, bestTimeToVisit := "Year-round" }

/-- A month outlook given by the four fields the advisories read. -/
def outlook (month : String) (minTemp maxTemp aqi : ℤ) (icon : String) (isCurrentMonth : Bool) :
    MonthOutlook :=
  { month := month, temp := "", minTemp := minTemp, maxTemp := maxTemp, icon := icon, aqi := aqi
    aqiLabel := "", aqiColor := "", isCurrentMonth := isCurrentMonth }

/-- The season index as the specification words it: the month index itself
north of the equator, shifted by six months otherwise (latitude 0 included). -/
def seasonIndexOf (monthIndex : ℕ) (latitude : ℚ) : ℕ :=
  if latitude > 0 then monthIndex else (monthIndex + 6) % 12

/-- The fixed ordered table of the specification: each advisory with the test
on the current month that gates it. -/
def advisoryTable : List ((MonthOutlook → Bool) × Recommendation) :=
  [(fun m => decide (m.aqi > 150), pollutionWarning),
   (fun m => decide (m.maxTemp > 35), heatInfo),
   (fun m => decide (m.icon = "rain"), monsoonInfo),
   (fun m => decide (m.minTemp < 10), coldInfo)]

/-- The sub-sequence of the fixed advisory list selected by the four tests on
the month `m`, as the specification words it. -/
def advisoriesFor (m : MonthOutlook) : List Recommendation :=
  (advisoryTable.filter fun entry => entry.1 m).map fun entry => entry.2

/-- The qualifying months of the specification: average of the two
temperature bounds in the closed interval [18, 32] and air-quality index at
most 100. -/
def qualifies (m : MonthOutlook) : Bool :=
  decide (18 ≤ ((m.minTemp : ℚ) + (m.maxTemp : ℚ)) / 2 ∧
    ((m.minTemp : ℚ) + (m.maxTemp : ℚ)) / 2 ≤ 32 ∧ m.aqi ≤ 100)

/-- The seasonal multiplier of the specification: 0.6 for the monsoon months
5..8, 1.3 for the winter months 11, 0, 1 and 1 otherwise. -/
def aqiMultiplier (i : ℕ) : ℚ :=
  if 5 ≤ i ∧ i ≤ 8 then 0.6 else if i = 11 ∨ i = 0 ∨ i = 1 then 1.3 else 1

/-- The stored value before `Math.round`, as the code computes it from the
base value `b`: `b` times the binary64 constant `0.6` for the months 5..8,
times the binary64 constant `1.3` for the months 11, 0, 1, the product rounded
to binary64, and `b` itself otherwise. -/
def scaledAqi (i : ℕ) (b : ℚ) : ℚ :=
  if 5 ≤ i ∧ i ≤ 8 then fmul b (toDouble 0.6)
  else if i = 11 ∨ i = 0 ∨ i = 1 then fmul b (toDouble 1.3)
  else b

/-! ## Shared lemmas -/

/-! ### Rounding to binary64 -/

theorem ulp_pos (x : ℚ) : 0 < ulp x := by
  unfold ulp; positivity

theorem roundHalfEven_le (z : ℚ) (n : ℤ) (h : z ≤ n) : roundHalfEven z ≤ n := by
  have hf : ⌊z⌋ ≤ n := by
    have := Int.floor_le z
    exact_mod_cast this.trans h
  unfold roundHalfEven
  have hlt : ∀ _ : ¬ (z - ⌊z⌋ < 1 / 2), ⌊z⌋ + 1 ≤ n := by
    intro hh
    have h1 : (⌊z⌋ : ℚ) < n := by linarith
    have h2 : ⌊z⌋ < n := by exact_mod_cast h1
    omega
  split_ifs with h1 h2 h3
  · exact hf
  · exact hlt h1
  · exact hf
  · exact hlt h1

theorem le_roundHalfEven (z : ℚ) (n : ℤ) (h : (n : ℚ) ≤ z) : n ≤ roundHalfEven z := by
  have hf : n ≤ ⌊z⌋ := Int.le_floor.mpr h
  unfold roundHalfEven
  split_ifs <;> omega

theorem roundHalfEven_intCast (n : ℤ) : roundHalfEven (n : ℚ) = n :=
  le_antisymm (roundHalfEven_le _ _ le_rfl) (le_roundHalfEven _ _ le_rfl)

theorem roundHalfEven_mono {z w : ℚ} (h : z ≤ w) : roundHalfEven z ≤ roundHalfEven w := by
  have hfl : ⌊z⌋ ≤ ⌊w⌋ := Int.floor_mono h
  rcases hfl.lt_or_eq with hlt | heq
  · have h1 : roundHalfEven z ≤ ⌊z⌋ + 1 := by
      unfold roundHalfEven
      split_ifs <;> omega
    have h2 : ⌊w⌋ ≤ roundHalfEven w := le_roundHalfEven _ _ (Int.floor_le w)
    omega
  · unfold roundHalfEven
    rw [← heq]
    split_ifs <;> first | omega | (exfalso; linarith)

theorem roundHalfEven_neg (z : ℚ) : roundHalfEven (-z) = -roundHalfEven z := by
  by_cases hz : (⌊z⌋ : ℚ) = z
  · rw [← hz, ← Int.cast_neg, roundHalfEven_intCast, roundHalfEven_intCast]
  · have hlt : (⌊z⌋ : ℚ) < z := lt_of_le_of_ne (Int.floor_le z) hz
    have hfn : ⌊-z⌋ = -⌊z⌋ - 1 := by
      rw [Int.floor_eq_iff]
      have := Int.lt_floor_add_one z
      push_cast
      constructor <;> linarith
    unfold roundHalfEven
    rw [hfn]
    push_cast
    split_ifs <;> first | omega | (exfalso; linarith)


theorem binadeExp_neg (x : ℚ) : binadeExp (-x) = binadeExp x := by
  unfold binadeExp; rw [abs_neg]

theorem ulp_neg (x : ℚ) : ulp (-x) = ulp x := by
  unfold ulp; rw [binadeExp_neg]

theorem toDouble_neg (x : ℚ) : toDouble (-x) = -toDouble x := by
  unfold toDouble
  rw [ulp_neg, neg_div, roundHalfEven_neg]
  push_cast
  ring

theorem toDouble_le_of_multiple (x : ℚ) (n : ℤ) (h : x ≤ n * ulp x) : toDouble x ≤ n * ulp x := by
  unfold toDouble
  have hu := ulp_pos x
  have h1 : x / ulp x ≤ n := by rwa [div_le_iff₀ hu]
  have h2 := roundHalfEven_le _ _ h1
  have h3 : (roundHalfEven (x / ulp x) : ℚ) ≤ n := by exact_mod_cast h2
  exact mul_le_mul_of_nonneg_right h3 hu.le

theorem le_toDouble_of_multiple (x : ℚ) (n : ℤ) (h : n * ulp x ≤ x) : n * ulp x ≤ toDouble x := by
  unfold toDouble
  have hu := ulp_pos x
  have h1 : (n : ℚ) ≤ x / ulp x := by rwa [le_div_iff₀ hu]
  have h2 := le_roundHalfEven _ _ h1
  have h3 : (n : ℚ) ≤ roundHalfEven (x / ulp x) := by exact_mod_cast h2
  exact mul_le_mul_of_nonneg_right h3 hu.le

theorem toDouble_nonneg {x : ℚ} (h : 0 ≤ x) : 0 ≤ toDouble x := by
  have := le_toDouble_of_multiple x 0 (by simpa using h)
  simpa using this

theorem toDouble_nonpos {x : ℚ} (h : x ≤ 0) : toDouble x ≤ 0 := by
  have := toDouble_le_of_multiple x 0 (by simpa using h)
  simpa using this

/-- A power of two with a non-negative exponent is an integer. -/
theorem zpow_two_eq_intCast {k : ℤ} (hk : 0 ≤ k) : ∃ n : ℤ, ((2 : ℚ) ^ k) = (n : ℚ) := by
  obtain ⟨m, rfl⟩ := Int.eq_ofNat_of_zero_le hk
  exact ⟨2 ^ m, by push_cast; rw [zpow_natCast]⟩

theorem binadeExp_mono {x y : ℚ} (hx : 0 < x) (h : x ≤ y) : binadeExp x ≤ binadeExp y := by
  unfold binadeExp
  have hy : 0 < y := lt_of_lt_of_le hx h
  rw [abs_of_pos hx, abs_of_pos hy]
  exact max_le_max (Int.log_mono_right hx h) le_rfl

theorem toDouble_mono_of_pos {x y : ℚ} (hx : 0 < x) (h : x ≤ y) : toDouble x ≤ toDouble y := by
  have hy : 0 < y := lt_of_lt_of_le hx h
  have hE := binadeExp_mono hx h
  rcases hE.lt_or_eq with hlt | heq
  · have hlogy : binadeExp y = Int.log 2 |y| := by
      unfold binadeExp at hlt ⊢
      have : (-1022 : ℤ) ≤ max (Int.log 2 |x|) (-1022) := le_max_right _ _
      rcases max_cases (Int.log 2 |y|) (-1022) with ⟨h1, _⟩ | ⟨h1, _⟩
      · exact h1
      · rw [h1] at hlt; omega
    have hP1 : (2 : ℚ) ^ binadeExp y ≤ y := by
      rw [hlogy, abs_of_pos hy]
      have := Int.zpow_log_le_self (R := ℚ) (b := 2) (by norm_num) hy
      simpa using this
    have hP2 : x ≤ (2 : ℚ) ^ binadeExp y := by
      have h1 := Int.lt_zpow_succ_log_self (R := ℚ) (b := 2) (by norm_num) x
      have h2 : Int.log 2 x + 1 ≤ binadeExp y := by
        have : Int.log 2 x ≤ binadeExp x := by
          unfold binadeExp; rw [abs_of_pos hx]; exact le_max_left _ _
        omega
      have h3 : (2 : ℚ) ^ (Int.log 2 x + 1) ≤ (2 : ℚ) ^ binadeExp y :=
        zpow_le_zpow_right₀ (by norm_num) h2
      have h1' : x < (2 : ℚ) ^ (Int.log 2 x + 1) := by simpa using h1
      linarith
    obtain ⟨n, hn⟩ := zpow_two_eq_intCast (k := binadeExp y - binadeExp x + 52) (by omega)
    have hPx : (2 : ℚ) ^ binadeExp y = n * ulp x := by
      rw [← hn]; unfold ulp
      rw [← zpow_add₀ (by norm_num : (2 : ℚ) ≠ 0)]
      congr 1; ring
    obtain ⟨m, hm⟩ := zpow_two_eq_intCast (k := 52) (by norm_num)
    have hPy : (2 : ℚ) ^ binadeExp y = m * ulp y := by
      rw [← hm]; unfold ulp
      rw [← zpow_add₀ (by norm_num : (2 : ℚ) ≠ 0)]
      congr 1; ring
    have h1 := toDouble_le_of_multiple x n (by rw [← hPx]; exact hP2)
    have h2 := le_toDouble_of_multiple y m (by rw [← hPy]; exact hP1)
    rw [← hPx] at h1
    rw [← hPy] at h2
    exact h1.trans h2
  · have hu : ulp x = ulp y := by unfold ulp; rw [heq]
    unfold toDouble
    rw [hu]
    have hpos := ulp_pos y
    have h1 : x / ulp y ≤ y / ulp y := div_le_div_of_nonneg_right h hpos.le
    have h2 := roundHalfEven_mono h1
    have h3 : (roundHalfEven (x / ulp y) : ℚ) ≤ roundHalfEven (y / ulp y) := by exact_mod_cast h2
    exact mul_le_mul_of_nonneg_right h3 hpos.le

/-- Rounding to binary64 is monotone. -/
theorem toDouble_mono {x y : ℚ} (h : x ≤ y) : toDouble x ≤ toDouble y := by
  rcases lt_trichotomy 0 x with hx | hx | hx
  · exact toDouble_mono_of_pos hx h
  · subst hx
    exact (toDouble_nonpos le_rfl).trans (toDouble_nonneg h)
  · rcases le_or_lt 0 y with hy | hy
    · exact (toDouble_nonpos hx.le).trans (toDouble_nonneg hy)
    · have := toDouble_mono_of_pos (x := -y) (y := -x) (by linarith) (by linarith)
      rw [toDouble_neg, toDouble_neg] at this
      linarith


theorem toDouble_zero : toDouble 0 = 0 :=
  le_antisymm (toDouble_nonpos le_rfl) (toDouble_nonneg le_rfl)

/-- A value that is an integer multiple of its own unit in the last place is a
binary64 number. -/
theorem toDouble_eq_self_of_multiple (d : ℚ) (n : ℤ) (h : d = n * ulp d) : toDouble d = d := by
  have hu := ulp_pos d
  unfold toDouble
  have h1 : d / ulp d = n := by rw [div_eq_iff hu.ne.symm]; exact h
  rw [h1, roundHalfEven_intCast]
  exact h.symm

/-- Dyadic rationals with a numerator below `2 ^ 53` are binary64 numbers. -/
theorem toDouble_dyadic (m : ℤ) (j : ℕ) (hj : j ≤ 1074)
    (h : |(m : ℚ) / 2 ^ j| < (2 : ℚ) ^ (53 - (j : ℤ))) : toDouble ((m : ℚ) / 2 ^ j) = (m : ℚ) / 2 ^ j := by
  by_cases hd : (m : ℚ) / 2 ^ j = 0
  · rw [hd, toDouble_zero]
  · have hpos : 0 < |(m : ℚ) / 2 ^ j| := abs_pos.mpr hd
    have hlog : Int.log 2 |(m : ℚ) / 2 ^ j| < 53 - (j : ℤ) := by
      rw [← Int.lt_zpow_iff_log_lt (by norm_num) hpos]
      simpa using h
    have hE : binadeExp ((m : ℚ) / 2 ^ j) ≤ 52 - (j : ℤ) := by
      unfold binadeExp
      apply max_le <;> omega
    obtain ⟨n, hn⟩ := zpow_two_eq_intCast
      (k := 52 - (j : ℤ) - binadeExp ((m : ℚ) / 2 ^ j)) (by omega)
    apply toDouble_eq_self_of_multiple _ (m * n)
    push_cast
    rw [← hn]
    unfold ulp
    rw [mul_assoc, ← zpow_add₀ (by norm_num : (2 : ℚ) ≠ 0)]
    have he : 52 - (j : ℤ) - binadeExp ((m : ℚ) / 2 ^ j) + (binadeExp ((m : ℚ) / 2 ^ j) - 52)
        = -(j : ℤ) := by ring
    rw [he, zpow_neg, zpow_natCast]
    rfl

/-- Integers of magnitude below `2 ^ 53` are binary64 numbers. -/
theorem toDouble_intCast (n : ℤ) (h : |(n : ℚ)| < 2 ^ 53) : toDouble (n : ℚ) = n := by
  have := toDouble_dyadic n 0 (by norm_num) (by norm_num at h ⊢; exact h)
  simpa using this

/-- Half-integers of magnitude below `2 ^ 52` are binary64 numbers. -/
theorem toDouble_half (n : ℤ) (h : |(n : ℚ) / 2| < 2 ^ 52) : toDouble ((n : ℚ) / 2) = (n : ℚ) / 2 := by
  have := toDouble_dyadic n 1 (by norm_num) (by norm_num at h ⊢; exact h)
  simpa using this

theorem roundHalfEven_eq_of_abs_lt (z : ℚ) (n : ℤ) (h : |z - n| < 1 / 2) :
    roundHalfEven z = n := by
  rw [abs_lt] at h
  obtain ⟨h1, h2⟩ := h
  rcases le_or_lt (n : ℚ) z with hz | hz
  · have hf : ⌊z⌋ = n := by
      rw [Int.floor_eq_iff]; constructor <;> linarith
    unfold roundHalfEven
    rw [hf, if_pos (by linarith)]
  · have hf : ⌊z⌋ = n - 1 := by
      rw [Int.floor_eq_iff]; push_cast; constructor <;> linarith
    unfold roundHalfEven
    rw [hf]
    push_cast
    rw [if_neg (by linarith), if_pos (by linarith)]
    ring

/-- A tie between two integers goes to the even one above. -/
theorem roundHalfEven_tie_up (z : ℚ) (n : ℤ) (h : z = (n : ℚ) - 1 / 2) (hn : n % 2 = 0) :
    roundHalfEven z = n := by
  have hf : ⌊z⌋ = n - 1 := by
    rw [Int.floor_eq_iff]; push_cast; constructor <;> linarith
  unfold roundHalfEven
  rw [hf]
  push_cast
  rw [if_neg (by linarith), if_neg (by linarith), if_neg (by omega)]
  ring

/-- Evaluation of the rounding at a value whose binade and rounded multiple of
the unit in the last place are known. -/
theorem toDouble_eval_of (x : ℚ) (e n : ℤ) (he : -1022 ≤ e) (hlo : (2 : ℚ) ^ e ≤ |x|)
    (hhi : |x| < (2 : ℚ) ^ (e + 1)) (hn : roundHalfEven (x / (2 : ℚ) ^ (e - 52)) = n) :
    toDouble x = n * (2 : ℚ) ^ (e - 52) := by
  have hpos : 0 < |x| := lt_of_lt_of_le (by positivity) hlo
  have h1 : e ≤ Int.log 2 |x| := by
    rw [← Int.zpow_le_iff_le_log (by norm_num) hpos]; simpa using hlo
  have h2 : Int.log 2 |x| < e + 1 := by
    rw [← Int.lt_zpow_iff_log_lt (by norm_num) hpos]; simpa using hhi
  have hE : binadeExp x = e := by
    unfold binadeExp
    rw [max_eq_left (by omega)]
    omega
  unfold toDouble ulp
  rw [hE, hn]

/-- Evaluation of the rounding away from a tie. -/
theorem toDouble_eval (x : ℚ) (e n : ℤ) (he : -1022 ≤ e) (hlo : (2 : ℚ) ^ e ≤ |x|)
    (hhi : |x| < (2 : ℚ) ^ (e + 1)) (hn : |x / (2 : ℚ) ^ (e - 52) - n| < 1 / 2) :
    toDouble x = n * (2 : ℚ) ^ (e - 52) :=
  toDouble_eval_of x e n he hlo hhi (roundHalfEven_eq_of_abs_lt _ n hn)

/-! ### The service -/

theorem monthlyData_eq (M : JSMath) (random : ℕ → ℚ) (c : ℕ) (currentData : CurrentData)
    (coords : Coords) :
    (formatMonthlyWeather M random c currentData coords).monthlyData =
      [monthEntry M random c currentData coords "Jan" 0,
       monthEntry M random c currentData coords "Feb" 1,
       monthEntry M random c currentData coords "Mar" 2,
       monthEntry M random c currentData coords "Apr" 3,
       monthEntry M random c currentData coords "May" 4,
       monthEntry M random c currentData coords "Jun" 5,
       monthEntry M random c currentData coords "Jul" 6,
       monthEntry M random c currentData coords "Aug" 7,
       monthEntry M random c currentData coords "Sep" 8,
       monthEntry M random c currentData coords "Oct" 9,
       monthEntry M random c currentData coords "Nov" 10,
       monthEntry M random c currentData coords "Dec" 11] :=
  rfl

theorem monthEntry_isCurrentMonth (M : JSMath) (random : ℕ → ℚ) (c : ℕ)
    (currentData : CurrentData) (coords : Coords) (month : String) (index : ℕ) :
    (monthEntry M random c currentData coords month index).isCurrentMonth = decide (index = c) :=
  rfl

theorem monthEntry_month (M : JSMath) (random : ℕ → ℚ) (c : ℕ)
    (currentData : CurrentData) (coords : Coords) (month : String) (index : ℕ) :
    (monthEntry M random c currentData coords month index).month = month :=
  rfl

/-- Every element of `monthlyData` is the entry of some index below 12. -/
theorem mem_monthlyData (M : JSMath) (random : ℕ → ℚ) (c : ℕ) (currentData : CurrentData)
    (coords : Coords) (m : MonthOutlook)
    (hm : m ∈ (formatMonthlyWeather M random c currentData coords).monthlyData) :
    ∃ month index, index < 12 ∧ m = monthEntry M random c currentData coords month index := by
  rw [monthlyData_eq] at hm
  simp only [List.mem_cons, List.mem_singleton, List.not_mem_nil, or_false] at hm
  rcases hm with h | h | h | h | h | h | h | h | h | h | h | h
  all_goals exact ⟨_, _, by decide, h⟩

/-- The element at a position below 12 is the entry of that index. -/
theorem getElem?_monthlyData (M : JSMath) (random : ℕ → ℚ) (c : ℕ) (currentData : CurrentData)
    (coords : Coords) (i : ℕ) (hi : i < 12) :
    (formatMonthlyWeather M random c currentData coords).monthlyData[i]? =
      some (monthEntry M random c currentData coords (months.getD i "") i) := by
  rw [monthlyData_eq]
  interval_cases i <;> rfl

/-- Positions of `monthlyData` are below 12. -/
theorem lt_of_getElem?_monthlyData (M : JSMath) (random : ℕ → ℚ) (c : ℕ)
    (currentData : CurrentData) (coords : Coords) (i : ℕ) (m : MonthOutlook)
    (him : (formatMonthlyWeather M random c currentData coords).monthlyData[i]? = some m) :
    i < 12 := by
  have h := (List.getElem?_eq_some_iff.mp him).1
  simpa [monthlyData_eq] using h

/-- The first flagged element, when the clock month is a month index. -/
theorem find?_monthlyData (M : JSMath) (random : ℕ → ℚ) (c : ℕ) (hc : c < 12)
    (currentData : CurrentData) (coords : Coords) :
    (formatMonthlyWeather M random c currentData coords).monthlyData.find?
        (fun m => m.isCurrentMonth) =
      some (monthEntry M random c currentData coords (months.getD c "") c) := by
  rw [monthlyData_eq]
  interval_cases c <;> rfl

/-- The recommendations when `find` returns a month: the four pushes in order. -/
theorem getWeatherRecommendations_of_find (w : WeatherData) (m : MonthOutlook)
    (h : w.monthlyData.find? (fun m => m.isCurrentMonth) = some m) :
    getWeatherRecommendations w =
      (if m.aqi > 150 then [pollutionWarning] else []) ++
      (if m.maxTemp > 35 then [heatInfo] else []) ++
      (if m.icon = "rain" then [monsoonInfo] else []) ++
      (if m.minTemp < 10 then [coldInfo] else []) := by
  unfold getWeatherRecommendations
  rw [h]
  by_cases h1 : m.aqi > 150 <;> by_cases h2 : m.maxTemp > 35 <;>
    by_cases h3 : m.icon = "rain" <;> by_cases h4 : m.minTemp < 10 <;> simp [h1, h2, h3, h4]

/-- The recommendations when `find` returns `undefined`. -/
theorem getWeatherRecommendations_of_none (w : WeatherData)
    (h : w.monthlyData.find? (fun m => m.isCurrentMonth) = none) :
    getWeatherRecommendations w = [] := by
  unfold getWeatherRecommendations
  rw [h]

theorem isGoodMonth_eq_qualifies : isGoodMonth = qualifies := by
  funext m
  simp only [isGoodMonth, qualifies, ge_iff_le, Bool.decide_and, Bool.and_assoc]

theorem getLast?_cons_append_singleton {α : Type} (first : α) (middle : List α) (last : α) :
    (first :: (middle ++ [last])).getLast? = some last := by
  rw [← List.cons_append, List.getLast?_append]
  simp

/-- The range label, from the shape of the filtered list. -/
theorem getBestTimeToVisit_of_filter_cons (monthlyData : List MonthOutlook)
    (first : MonthOutlook) (middle : List MonthOutlook) (last : MonthOutlook)
    (h : monthlyData.filter qualifies = first :: (middle ++ [last])) :
    getBestTimeToVisit monthlyData = first.month ++ " - " ++ last.month := by
  have hlast := getLast?_cons_append_singleton first middle last
  rw [List.getLast?_eq_getElem?] at hlast
  simp only [getBestTimeToVisit, isGoodMonth_eq_qualifies, h, hlast]
  simp

/-- A hot January and a polluted February: no month qualifies. -/
theorem qualifies_sample_nil :
    [outlook "Jan" 35 45 50 "sun" false, outlook "Feb" 20 30 500 "sun" false].filter qualifies
      = [] := by
  have q1 : qualifies (outlook "Jan" 35 45 50 "sun" false) = false := by
    norm_num [qualifies, outlook]
  have q2 : qualifies (outlook "Feb" 20 30 500 "sun" false) = false := by
    norm_num [qualifies, outlook]
  simp [List.filter_cons, q1, q2]

/-- The rounded value of a number between two quarter-offset bounds. -/
theorem jsRound_between (x : ℚ) (lo hi : ℤ) (hlo : (lo : ℚ) - 1 / 4 ≤ x)
    (hhi : x ≤ (hi : ℚ) + 1 / 4) : lo ≤ jsRound x ∧ jsRound x ≤ hi := by
  unfold jsRound
  constructor
  · rw [Int.le_floor]
    linarith
  · have h : ⌊x + 1 / 2⌋ < hi + 1 := by
      rw [Int.floor_lt]
      push_cast
      linarith
    omega

theorem monthEntry_aqi (M : JSMath) (random : ℕ → ℚ) (c : ℕ)
    (currentData : CurrentData) (coords : Coords) (month : String) (index : ℕ) :
    (monthEntry M random c currentData coords month index).aqi =
      jsRound (baseAqi index (random index)) :=
  rfl

/-- Small dyadic constants are binary64 numbers. -/
theorem toDouble_quarter (n : ℤ) (h : |(n : ℚ) / 4| < 2 ^ 51) :
    toDouble ((n : ℚ) / 4) = (n : ℚ) / 4 := by
  have := toDouble_dyadic n 2 (by norm_num) (by norm_num at h ⊢; exact h)
  norm_num at this ⊢
  exact this

/-- The binary64 constant `0.6`. -/
theorem toDouble_six_tenths : toDouble 0.6 = 5404319552844595 / 9007199254740992 := by
  rw [toDouble_eval 0.6 (-1) 5404319552844595 (by norm_num) (by norm_num [abs_of_pos])
    (by norm_num [abs_of_pos]) (by norm_num [abs_lt])]
  norm_num

/-- The binary64 constant `1.3`. -/
theorem toDouble_thirteen_tenths : toDouble 1.3 = 5854679515581645 / 4503599627370496 := by
  rw [toDouble_eval 1.3 0 5854679515581645 (by norm_num) (by norm_num [abs_of_pos])
    (by norm_num [abs_of_pos]) (by norm_num [abs_lt])]
  norm_num

/-- The base value `60 + Math.random() * 80` in binary64 lies in [60, 140]. -/
theorem base_bounds (r : ℚ) (h0 : 0 ≤ r) (h1 : r < 1) :
    60 ≤ fadd 60 (fmul r 80) ∧ fadd 60 (fmul r 80) ≤ 140 := by
  have e0 : toDouble 0 = 0 := toDouble_zero
  have e80 : toDouble 80 = 80 := by
    have := toDouble_intCast 80 (by norm_num [abs_of_pos])
    simpa using this
  have e60 : toDouble 60 = 60 := by
    have := toDouble_intCast 60 (by norm_num [abs_of_pos])
    simpa using this
  have e140 : toDouble 140 = 140 := by
    have := toDouble_intCast 140 (by norm_num [abs_of_pos])
    simpa using this
  have hp0 : 0 ≤ fmul r 80 := by
    have := toDouble_mono (x := 0) (y := r * 80) (by linarith)
    rwa [e0] at this
  have hp1 : fmul r 80 ≤ 80 := by
    have := toDouble_mono (x := r * 80) (y := 80) (by linarith)
    rwa [e80] at this
  constructor
  · have := toDouble_mono (x := 60) (y := 60 + fmul r 80) (by linarith)
    rwa [e60] at this
  · have := toDouble_mono (x := 60 + fmul r 80) (y := 140) (by linarith)
    rwa [e140] at this

/-- A binary64 product that lies between two quarter-offset bounds. -/
theorem jsRound_fmul_between (b k : ℚ) (lo hi : ℤ) (hlo : (lo : ℚ) - 1 / 4 ≤ b * k)
    (hhi : b * k ≤ (hi : ℚ) + 1 / 4) (hl : |(4 * lo - 1 : ℤ) / (4 : ℚ)| < 2 ^ 51)
    (hh : |(4 * hi + 1 : ℤ) / (4 : ℚ)| < 2 ^ 51) :
    lo ≤ jsRound (fmul b k) ∧ jsRound (fmul b k) ≤ hi := by
  have el := toDouble_quarter (4 * lo - 1) hl
  have eh := toDouble_quarter (4 * hi + 1) hh
  apply jsRound_between
  · have := toDouble_mono (x := ((4 * lo - 1 : ℤ) : ℚ) / 4) (y := b * k)
      (by push_cast; linarith)
    rw [el] at this
    unfold fmul
    push_cast at this
    linarith
  · have := toDouble_mono (x := b * k) (y := ((4 * hi + 1 : ℤ) : ℚ) / 4)
      (by push_cast; linarith)
    rw [eh] at this
    unfold fmul
    push_cast at this
    linarith

/-- The rounded air-quality index of each month class, for a sample in [0, 1). -/
theorem jsRound_baseAqi_bounds (i : ℕ) (hi : i < 12) (r : ℚ) (h0 : 0 ≤ r) (h1 : r < 1) :
    ((5 ≤ i ∧ i ≤ 8) → 36 ≤ jsRound (baseAqi i r) ∧ jsRound (baseAqi i r) ≤ 84) ∧
    (((2 ≤ i ∧ i ≤ 4) ∨ (9 ≤ i ∧ i ≤ 10)) →
      60 ≤ jsRound (baseAqi i r) ∧ jsRound (baseAqi i r) ≤ 140) ∧
    ((i = 11 ∨ i = 0 ∨ i = 1) → 78 ≤ jsRound (baseAqi i r) ∧ jsRound (baseAqi i r) ≤ 182) := by
  obtain ⟨hb0, hb1⟩ := base_bounds r h0 h1
  refine ⟨fun h => ?_, fun h => ?_, fun h => ?_⟩
  · have hb : baseAqi i r = fmul (fadd 60 (fmul r 80)) (toDouble 0.6) := by
      have h5 : ¬ (i ≥ 11 ∨ i ≤ 1) := by omega
      simp [baseAqi, h, h5]
    rw [hb, toDouble_six_tenths]
    apply jsRound_fmul_between <;> norm_num [abs_of_pos] <;> linarith
  · have hb : baseAqi i r = fadd 60 (fmul r 80) := by
      have h5 : ¬ (i ≥ 5 ∧ i ≤ 8) := by omega
      have h6 : ¬ (i ≥ 11 ∨ i ≤ 1) := by omega
      simp [baseAqi, h5, h6]
    rw [hb]
    apply jsRound_between <;> norm_num <;> linarith
  · have hb : baseAqi i r = fmul (fadd 60 (fmul r 80)) (toDouble 1.3) := by
      have h5 : ¬ (i ≥ 5 ∧ i ≤ 8) := by omega
      have h6 : i ≥ 11 ∨ i ≤ 1 := by omega
      simp [baseAqi, h5, h6]
    rw [hb, toDouble_thirteen_tenths]
    apply jsRound_fmul_between <;> norm_num [abs_of_pos] <;> linarith

/-- The pollution warning is pushed exactly on the first test. -/
theorem pollutionWarning_mem (w : WeatherData) (cur : MonthOutlook)
    (h : w.monthlyData.find? (fun m => m.isCurrentMonth) = some cur) :
    pollutionWarning ∈ getWeatherRecommendations w ↔ cur.aqi > 150 := by
  rw [getWeatherRecommendations_of_find w cur h]
  have hne : pollutionWarning ≠ heatInfo ∧ pollutionWarning ≠ monsoonInfo ∧
      pollutionWarning ≠ coldInfo := by decide
  obtain ⟨n12, n13, n14⟩ := hne
  by_cases h1 : cur.aqi > 150 <;> by_cases h2 : cur.maxTemp > 35 <;>
    by_cases h3 : cur.icon = "rain" <;> by_cases h4 : cur.minTemp < 10 <;>
    simp [h1, h2, h3, h4, n12, n13, n14]

/-- The phase offset of the current month is zero when `Math.sin(0)` is. -/
theorem tempVariation_current (M : JSMath) (hsin : M.sin 0 = 0) (c : ℕ) :
    fmul (M.sin (fdiv (fmul (fsub (c : ℚ) (c : ℚ)) M.PI) 6)) 8 = 0 := by
  simp [fsub, fmul, fdiv, toDouble_zero, hsin]

/-- The two bounds of the current month for a binary64 temperature. -/
theorem monthEntry_current (M : JSMath) (hsin : M.sin 0 = 0) (random : ℕ → ℚ) (c : ℕ)
    (currentData : CurrentData) (ht : toDouble currentData.main.temp = currentData.main.temp)
    (coords : Coords) (month : String) :
    (monthEntry M random c currentData coords month c).minTemp =
      jsRound (fsub currentData.main.temp 4) ∧
    (monthEntry M random c currentData coords month c).maxTemp =
      jsRound (fadd currentData.main.temp 6) := by
  have h0 : fadd currentData.main.temp 0 = currentData.main.temp := by
    simp [fadd, ht]
  constructor <;> simp only [monthEntry, tempVariation_current M hsin c, h0]

theorem sampleMath_sin_zero : sampleMath.sin 0 = 0 := by
  simp [sampleMath, sineAt, sineTable, List.find?]

theorem sineTable_abs_le (entry : ℚ × ℚ) (h : entry ∈ sineTable) : |entry.2| ≤ 1 := by
  simp only [sineTable, List.mem_cons, List.mem_singleton, List.not_mem_nil, or_false] at h
  rcases h with h | h | h | h | h | h | h | h | h | h | h | h <;> subst h <;>
    (rw [abs_le]; constructor <;> norm_num)

theorem sineAt_abs_le (x : ℚ) : |sineAt x| ≤ 1 := by
  unfold sineAt
  split
  · next entry hfind => exact sineTable_abs_le entry (List.mem_of_find?_eq_some hfind)
  · simp

theorem sampleMath_sin_abs_le (y : ℚ) : |sampleMath.sin y| ≤ 1 := by
  simp only [sampleMath]
  split_ifs
  · rw [abs_neg]; exact sineAt_abs_le _
  · exact sineAt_abs_le _

theorem toDouble_belowHalf : toDouble belowHalf = belowHalf := by
  have := toDouble_dyadic 9007199254740991 54 (by norm_num) (by norm_num [abs_of_pos])
  norm_num [belowHalf] at this ⊢
  exact this

theorem toDouble_belowThreeAndHalf : toDouble belowThreeAndHalf = belowThreeAndHalf := by
  have := toDouble_dyadic 7881299347898367 51 (by norm_num) (by norm_num [abs_of_pos])
  norm_num [belowThreeAndHalf] at this ⊢
  exact this

theorem toDouble_twenty_five : toDouble 25 = 25 := by
  have := toDouble_intCast 25 (by norm_num [abs_of_pos])
  simpa using this

/-- Rounding to binary64 keeps a value below an integer bound of magnitude
under `2 ^ 53`. -/
theorem toDouble_le_int (x : ℚ) (k : ℤ) (hk : |(k : ℚ)| < 2 ^ 53) (h : x ≤ k) :
    toDouble x ≤ k := by
  have := toDouble_mono h
  rwa [toDouble_intCast k hk] at this

theorem int_le_toDouble (x : ℚ) (k : ℤ) (hk : |(k : ℚ)| < 2 ^ 53) (h : (k : ℚ) ≤ x) :
    (k : ℚ) ≤ toDouble x := by
  have := toDouble_mono h
  rwa [toDouble_intCast k hk] at this

/-- Rounding to binary64 keeps a value below a half-integer bound of magnitude
under `2 ^ 52`. -/
theorem toDouble_le_half (x : ℚ) (k : ℤ) (hk : |(k : ℚ) / 2| < 2 ^ 52) (h : x ≤ (k : ℚ) / 2) :
    toDouble x ≤ (k : ℚ) / 2 := by
  have := toDouble_mono h
  rwa [toDouble_half k hk] at this

theorem half_le_toDouble (x : ℚ) (k : ℤ) (hk : |(k : ℚ) / 2| < 2 ^ 52) (h : (k : ℚ) / 2 ≤ x) :
    (k : ℚ) / 2 ≤ toDouble x := by
  have := toDouble_mono h
  rwa [toDouble_half k hk] at this

/-- A maximum above 35 leaves the minimum at 10 or more: the two sums are
roundings of `x + 6` and `x - 4` for one binary64 value `x`. -/
theorem heat_excludes_cold (x : ℚ) (h : 35 < jsRound (fadd x 6)) : 10 ≤ jsRound (fsub x 4) := by
  have hx : 35 < x + 6 := by
    by_contra hle
    push_neg at hle
    have h35 := toDouble_le_int (x + 6) 35 (by norm_num [abs_of_pos]) (by push_cast; linarith)
    have hlt : jsRound (fadd x 6) < 36 := by
      unfold jsRound fadd
      rw [Int.floor_lt]
      push_cast at h35 ⊢
      linarith
    omega
  have h25 := int_le_toDouble (x - 4) 25 (by norm_num [abs_of_pos]) (by push_cast; linarith)
  unfold jsRound fsub
  rw [Int.le_floor]
  push_cast at h25 ⊢
  linarith

/-- The two rounded bounds of one binary64 value of moderate size are 9, 10 or
11 apart. -/
theorem spread_bounds (x : ℚ) (hx : |x| ≤ 2 ^ 50 + 8) :
    jsRound (fsub x 4) + 9 ≤ jsRound (fadd x 6) ∧
    jsRound (fadd x 6) ≤ jsRound (fsub x 4) + 11 := by
  rw [abs_le] at hx
  obtain ⟨hx1, hx2⟩ := hx
  have ha1 := toDouble_le_int (x - 4) (2 ^ 50 + 4) (by norm_num [abs_of_pos])
    (by push_cast; linarith)
  have ha2 := int_le_toDouble (x - 4) (-(2 ^ 50 + 12)) (by norm_num [abs_of_pos])
    (by push_cast; linarith)
  obtain ⟨n, hn⟩ : ∃ n : ℤ, jsRound (fsub x 4) = n := ⟨_, rfl⟩
  have hn1 : ((jsRound (fsub x 4) : ℤ) : ℚ) ≤ toDouble (x - 4) + 1 / 2 := Int.floor_le _
  have hn2 : toDouble (x - 4) + 1 / 2 < ((jsRound (fsub x 4) : ℤ) : ℚ) + 1 :=
    Int.lt_floor_add_one _
  rw [hn] at hn1 hn2 ⊢
  push_cast at ha1 ha2
  have hnlo : -(2 ^ 50 + 14) < (n : ℚ) := by linarith
  have hnhi : (n : ℚ) < 2 ^ 50 + 14 := by linarith
  have hA : (n : ℚ) - 1 < x - 4 := by
    by_contra hle
    push_neg at hle
    have := toDouble_le_int (x - 4) (n - 1)
      (by push_cast; rw [abs_lt]; constructor <;> linarith) (by push_cast; linarith)
    push_cast at this
    linarith
  have hB : x - 4 < (n : ℚ) + 1 / 2 := by
    by_contra hle
    push_neg at hle
    have := half_le_toDouble (x - 4) (2 * n + 1)
      (by push_cast; rw [abs_lt]; constructor <;> linarith) (by push_cast; linarith)
    push_cast at this
    linarith
  have hlo := int_le_toDouble (x + 6) (n + 9)
    (by push_cast; rw [abs_lt]; constructor <;> linarith) (by push_cast; linarith)
  have hhi := toDouble_le_half (x + 6) (2 * n + 21)
    (by push_cast; rw [abs_lt]; constructor <;> linarith) (by push_cast; linarith)
  push_cast at hlo hhi
  constructor
  · unfold jsRound fadd
    rw [Int.le_floor]
    push_cast
    linarith
  · have hlt : jsRound (fadd x 6) < n + 12 := by
      unfold jsRound fadd
      rw [Int.floor_lt]
      push_cast
      linarith
    omega

/-- The phase offset has magnitude at most 8 when the sine has magnitude at
most 1. -/
theorem abs_tempVariation_le (s : ℚ) (hs : |s| ≤ 1) : |fmul s 8| ≤ 8 := by
  rw [abs_le] at hs ⊢
  have h1 := int_le_toDouble (s * 8) (-8) (by norm_num [abs_of_pos]) (by push_cast; linarith)
  have h2 := toDouble_le_int (s * 8) 8 (by norm_num [abs_of_pos]) (by push_cast; linarith)
  push_cast at h1 h2
  exact ⟨h1, h2⟩

/-- The offset temperature stays of moderate size. -/
theorem abs_fadd_le (t v : ℚ) (ht : |t| ≤ 2 ^ 50) (hv : |v| ≤ 8) : |fadd t v| ≤ 2 ^ 50 + 8 := by
  rw [abs_le] at ht hv ⊢
  have h1 := int_le_toDouble (t + v) (-(2 ^ 50 + 8)) (by norm_num [abs_of_pos])
    (by push_cast; linarith)
  have h2 := toDouble_le_int (t + v) (2 ^ 50 + 8) (by norm_num [abs_of_pos])
    (by push_cast; linarith)
  push_cast at h1 h2
  unfold fadd
  constructor <;> linarith

/-! ## Claims -/

/-- C1: for every observation, every current-month index `c` in 0..11 and every
sequence of random samples, `monthlyData` has exactly 12 entries, its month
labels are Jan .. Dec in that order, and exactly one entry is flagged
`isCurrentMonth`, namely the entry at position `c`. -/
theorem formatMonthlyWeather_twelve_months (M : JSMath) (random : ℕ → ℚ) (c : ℕ) (hc : c < 12)
    (currentData : CurrentData) (coords : Coords) :
    (formatMonthlyWeather M random c currentData coords).monthlyData.length = 12 ∧
    (formatMonthlyWeather M random c currentData coords).monthlyData.map (fun m => m.month) =
      ["Jan", "Feb", "Mar", "Apr", "May", "Jun", "Jul", "Aug", "Sep", "Oct", "Nov", "Dec"] ∧
    (formatMonthlyWeather M random c currentData coords).monthlyData.countP
      (fun m => m.isCurrentMonth) = 1 ∧
    ∀ i m, (formatMonthlyWeather M random c currentData coords).monthlyData[i]? = some m →
      (m.isCurrentMonth = true ↔ i = c) := by
  refine ⟨rfl, rfl, ?_, ?_⟩
  · rw [monthlyData_eq]
    interval_cases c <;> simp [List.countP_cons, monthEntry_isCurrentMonth]
  · intro i m him
    have hi := lt_of_getElem?_monthlyData M random c currentData coords i m him
    rw [getElem?_monthlyData M random c currentData coords i hi] at him
    cases him
    simp [monthEntry_isCurrentMonth]

theorem formatMonthlyWeather_twelve_months_witness :
    3 < 12 ∧
    (formatMonthlyWeather sampleMath (fun _ => 1 / 2) 3 sampleData sampleCoords).monthlyData.length
      = 12 ∧
    (formatMonthlyWeather sampleMath (fun _ => 1 / 2) 3 sampleData sampleCoords).monthlyData.map
      (fun m => m.month) =
      ["Jan", "Feb", "Mar", "Apr", "May", "Jun", "Jul", "Aug", "Sep", "Oct", "Nov", "Dec"] ∧
    (formatMonthlyWeather sampleMath (fun _ => 1 / 2) 3 sampleData sampleCoords).monthlyData.countP
      (fun m => m.isCurrentMonth) = 1 ∧
    ∀ i m, (formatMonthlyWeather sampleMath (fun _ => 1 / 2) 3 sampleData
        sampleCoords).monthlyData[i]? = some m → (m.isCurrentMonth = true ↔ i = 3) :=
  ⟨by decide, formatMonthlyWeather_twelve_months sampleMath (fun _ => 1 / 2) 3 (by decide)
    sampleData sampleCoords⟩

/-- C3: for every month index `i` in 0..11 and every latitude,
`getSeasonalIcon(i, latitude)` is the fixed lookup on the season index `s`
(`i` when latitude > 0, `(i + 6) mod 12` otherwise, latitude 0 included):
2..4 gives sun, 5..7 rain, 8..10 partlyCloud, and 11, 0, 1 sun; the result
depends only on `i` and on whether latitude > 0; latitude +20, index 3 gives
sun and latitude -20, index 3 gives season index 9 and partlyCloud. -/
theorem getSeasonalIcon_lookup (i : ℕ) (hi : i < 12) (latitude : ℚ) :
    ((2 ≤ seasonIndexOf i latitude ∧ seasonIndexOf i latitude ≤ 4) →
      getSeasonalIcon i latitude = "sun") ∧
    ((5 ≤ seasonIndexOf i latitude ∧ seasonIndexOf i latitude ≤ 7) →
      getSeasonalIcon i latitude = "rain") ∧
    ((8 ≤ seasonIndexOf i latitude ∧ seasonIndexOf i latitude ≤ 10) →
      getSeasonalIcon i latitude = "partlyCloud") ∧
    ((seasonIndexOf i latitude = 11 ∨ seasonIndexOf i latitude = 0 ∨
        seasonIndexOf i latitude = 1) →
      getSeasonalIcon i latitude = "sun") ∧
    seasonIndexOf i latitude < 12 ∧
    (latitude = 0 → seasonIndexOf i latitude = (i + 6) % 12) ∧
    (∀ other : ℚ, (latitude > 0 ↔ other > 0) →
      getSeasonalIcon i latitude = getSeasonalIcon i other) ∧
    getSeasonalIcon 3 20 = "sun" ∧
    seasonIndexOf 3 (-20) = 9 ∧
    getSeasonalIcon 3 (-20) = "partlyCloud" := by
  have hex1 : getSeasonalIcon 3 20 = "sun" := by
    simp [getSeasonalIcon]
  have hex2 : seasonIndexOf 3 (-20) = 9 := by
    simp [seasonIndexOf]
  have hex3 : getSeasonalIcon 3 (-20) = "partlyCloud" := by
    simp [getSeasonalIcon]
  refine ⟨?_, ?_, ?_, ?_, ?_, ?_, ?_, hex1, hex2, hex3⟩
  · by_cases hl : latitude > 0 <;> interval_cases i <;>
      simp [seasonIndexOf, getSeasonalIcon, hl]
  · by_cases hl : latitude > 0 <;> interval_cases i <;>
      simp [seasonIndexOf, getSeasonalIcon, hl]
  · by_cases hl : latitude > 0 <;> interval_cases i <;>
      simp [seasonIndexOf, getSeasonalIcon, hl]
  · by_cases hl : latitude > 0 <;> interval_cases i <;>
      simp [seasonIndexOf, getSeasonalIcon, hl]
  · by_cases hl : latitude > 0 <;> interval_cases i <;> simp [seasonIndexOf, hl]
  · intro h0
    simp [seasonIndexOf, h0]
  · intro other hiff
    by_cases hl : latitude > 0
    · have ho : other > 0 := hiff.mp hl
      simp [getSeasonalIcon, hl, ho]
    · have ho : ¬ other > 0 := fun h => hl (hiff.mpr h)
      simp [getSeasonalIcon, hl, ho]

theorem getSeasonalIcon_lookup_witness :
    7 < 12 ∧ ((5 ≤ seasonIndexOf 7 20 ∧ seasonIndexOf 7 20 ≤ 7) → getSeasonalIcon 7 20 = "rain") :=
  ⟨by decide, (getSeasonalIcon_lookup 7 (by decide) 20).2.1⟩

/-- C4: for every list of month outlooks, with `G` the sub-list (in original
order) of the months whose average `(minTemp + maxTemp) / 2` lies in [18, 32]
and whose aqi is at most 100, `getBestTimeToVisit` returns "Year-round" when
`G` is empty (so also when every average is 40), the label alone when `G` has
one element, and otherwise the first label, " - ", the last label, whatever
lies between them: months Jan and Mar qualifying around a Feb that does not
give "Jan - Mar". -/
theorem getBestTimeToVisit_label (monthlyData : List MonthOutlook) :
    (monthlyData.filter qualifies = [] → getBestTimeToVisit monthlyData = "Year-round") ∧
    ((∀ m ∈ monthlyData, ((m.minTemp : ℚ) + (m.maxTemp : ℚ)) / 2 = 40) →
      getBestTimeToVisit monthlyData = "Year-round") ∧
    (∀ g, monthlyData.filter qualifies = [g] → getBestTimeToVisit monthlyData = g.month) ∧
    (∀ first middle last, monthlyData.filter qualifies = first :: (middle ++ [last]) →
      getBestTimeToVisit monthlyData = first.month ++ " - " ++ last.month) ∧
    (2 ≤ (monthlyData.filter qualifies).length →
      ∃ first last, (monthlyData.filter qualifies).head? = some first ∧
        (monthlyData.filter qualifies).getLast? = some last ∧
        getBestTimeToVisit monthlyData = first.month ++ " - " ++ last.month) ∧
    getBestTimeToVisit [outlook "Jan" 20 30 50 "sun" false, outlook "Feb" 35 45 50 "sun" false,
      outlook "Mar" 20 30 50 "sun" false] = "Jan - Mar" := by
  have hnil : monthlyData.filter qualifies = [] → getBestTimeToVisit monthlyData = "Year-round" := by
    intro h
    simp [getBestTimeToVisit, isGoodMonth_eq_qualifies, h]
  refine ⟨hnil, ?_, ?_, getBestTimeToVisit_of_filter_cons monthlyData, ?_, ?_⟩
  · intro h
    apply hnil
    rw [List.filter_eq_nil_iff]
    intro m hm
    have h40 := h m hm
    simp only [qualifies, h40]
    norm_num
  · intro g h
    simp [getBestTimeToVisit, isGoodMonth_eq_qualifies, h]
  · intro hlen
    rcases hfil : monthlyData.filter qualifies with _ | ⟨first, rest⟩
    · simp [hfil] at hlen
    · rcases List.eq_nil_or_concat rest with hrest | ⟨middle, last, hrest⟩
      · simp [hfil, hrest] at hlen
      · rw [List.concat_eq_append] at hrest
        subst hrest
        exact ⟨first, last, by simp, getLast?_cons_append_singleton first middle last,
          getBestTimeToVisit_of_filter_cons monthlyData first middle last hfil⟩
  · have q1 : qualifies (outlook "Jan" 20 30 50 "sun" false) = true := by
      norm_num [qualifies, outlook]
    have q2 : qualifies (outlook "Feb" 35 45 50 "sun" false) = false := by
      norm_num [qualifies, outlook]
    have q3 : qualifies (outlook "Mar" 20 30 50 "sun" false) = true := by
      norm_num [qualifies, outlook]
    have h := getBestTimeToVisit_of_filter_cons
      [outlook "Jan" 20 30 50 "sun" false, outlook "Feb" 35 45 50 "sun" false,
        outlook "Mar" 20 30 50 "sun" false]
      (outlook "Jan" 20 30 50 "sun" false) [] (outlook "Mar" 20 30 50 "sun" false)
      (by simp [List.filter_cons, q1, q2, q3])
    rw [h]
    decide

theorem getBestTimeToVisit_label_witness :
    [outlook "Jan" 35 45 50 "sun" false, outlook "Feb" 20 30 500 "sun" false].filter qualifies
      = [] ∧
    getBestTimeToVisit [outlook "Jan" 35 45 50 "sun" false, outlook "Feb" 20 30 500 "sun" false]
      = "Year-round" :=
  ⟨qualifies_sample_nil, (getBestTimeToVisit_label _).1 qualifies_sample_nil⟩

/-- C5: for every forecast result that contains a month flagged
`isCurrentMonth`, `getWeatherRecommendations` returns exactly the sub-sequence
of the fixed list [pollution warning, heat info, monsoon info, cold info]
selected by the four independent tests `aqi > 150`, `maxTemp > 35`,
`icon = rain`, `minTemp < 10` on the first flagged month; it has at most 4
entries, only the first can have type warning, a current month with aqi 200,
maxTemp 40, icon rain, minTemp 5 yields all four in order and one with aqi 30,
maxTemp 20, icon sun, minTemp 15 yields the empty list. -/
theorem getWeatherRecommendations_current (w : WeatherData)
    (hw : ∃ m ∈ w.monthlyData, m.isCurrentMonth = true) :
    ∃ cur, w.monthlyData.find? (fun m => m.isCurrentMonth) = some cur ∧
      getWeatherRecommendations w = advisoriesFor cur ∧
      (getWeatherRecommendations w).Sublist [pollutionWarning, heatInfo, monsoonInfo, coldInfo] ∧
      (pollutionWarning ∈ getWeatherRecommendations w ↔ cur.aqi > 150) ∧
      (heatInfo ∈ getWeatherRecommendations w ↔ cur.maxTemp > 35) ∧
      (monsoonInfo ∈ getWeatherRecommendations w ↔ cur.icon = "rain") ∧
      (coldInfo ∈ getWeatherRecommendations w ↔ cur.minTemp < 10) ∧
      (getWeatherRecommendations w).length ≤ 4 ∧
      (∀ r ∈ (getWeatherRecommendations w).tail, r.type = "info") ∧
      (cur.aqi = 200 → cur.maxTemp = 40 → cur.icon = "rain" → cur.minTemp = 5 →
        getWeatherRecommendations w = [pollutionWarning, heatInfo, monsoonInfo, coldInfo]) ∧
      (cur.aqi = 30 → cur.maxTemp = 20 → cur.icon = "sun" → cur.minTemp = 15 →
        getWeatherRecommendations w = []) := by
  obtain ⟨m, hm, hflag⟩ := hw
  have hsome : (w.monthlyData.find? (fun m => m.isCurrentMonth)).isSome = true := by
    rw [List.find?_isSome]
    exact ⟨m, hm, hflag⟩
  obtain ⟨cur, hcur⟩ := Option.isSome_iff_exists.mp hsome
  refine ⟨cur, hcur, ?_⟩
  rw [getWeatherRecommendations_of_find w cur hcur]
  have hne : pollutionWarning ≠ heatInfo ∧ pollutionWarning ≠ monsoonInfo ∧
      pollutionWarning ≠ coldInfo ∧ heatInfo ≠ monsoonInfo ∧ heatInfo ≠ coldInfo ∧
      monsoonInfo ≠ coldInfo := by decide
  obtain ⟨n12, n13, n14, n23, n24, n34⟩ := hne
  have t2 : heatInfo.type = "info" := rfl
  have t3 : monsoonInfo.type = "info" := rfl
  have t4 : coldInfo.type = "info" := rfl
  by_cases h1 : cur.aqi > 150 <;> by_cases h2 : cur.maxTemp > 35 <;>
    by_cases h3 : cur.icon = "rain" <;> by_cases h4 : cur.minTemp < 10 <;>
    simp [advisoriesFor, advisoryTable, List.filter_cons, h1, h2, h3, h4, n12, n13, n14, n23,
      n24, n34, n12.symm, n13.symm, n14.symm, n23.symm, n24.symm, n34.symm, t2, t3, t4] <;>
    omega

theorem getWeatherRecommendations_current_witness :
    (∃ m ∈ (forecastOf [outlook "Jan" 5 40 200 "rain" true]).monthlyData,
      m.isCurrentMonth = true) ∧
    ∃ cur, (forecastOf [outlook "Jan" 5 40 200 "rain" true]).monthlyData.find?
        (fun m => m.isCurrentMonth) = some cur ∧
      getWeatherRecommendations (forecastOf [outlook "Jan" 5 40 200 "rain" true]) =
        advisoriesFor cur :=
  ⟨⟨_, List.mem_singleton.mpr rfl, rfl⟩,
    (getWeatherRecommendations_current (forecastOf [outlook "Jan" 5 40 200 "rain" true])
      ⟨_, List.mem_singleton.mpr rfl, rfl⟩).imp fun _ h => ⟨h.1, h.2.1⟩⟩

/-- C6: for every forecast result whose `monthlyData` has no entry with
`isCurrentMonth = true` (an empty `monthlyData` included),
`getWeatherRecommendations` returns the empty list, whatever the aqi,
temperatures and icons of the months are; the function is total, so it does
not fail. -/
theorem getWeatherRecommendations_no_current (w : WeatherData)
    (hw : ∀ m ∈ w.monthlyData, m.isCurrentMonth = false) :
    getWeatherRecommendations w = [] := by
  apply getWeatherRecommendations_of_none
  rw [List.find?_eq_none]
  intro m hm
  simp [hw m hm]

theorem getWeatherRecommendations_no_current_witness :
    (∀ m ∈ (forecastOf [outlook "Jan" 5 40 200 "rain" false]).monthlyData,
      m.isCurrentMonth = false) ∧
    getWeatherRecommendations (forecastOf [outlook "Jan" 5 40 200 "rain" false]) = [] :=
  ⟨fun m hm => by rw [List.mem_singleton.mp hm]; rfl,
    getWeatherRecommendations_no_current (forecastOf [outlook "Jan" 5 40 200 "rain" false])
      (fun m hm => by rw [List.mem_singleton.mp hm]; rfl)⟩

/-- C10: for every forecast produced by `formatMonthlyWeather` with samples in
[0, 1) (base values in [60, 140)), the aqi of the months 5..8 lies in [36, 84],
that of the months 2..4 and 9..10 in [60, 140] and that of the months 11, 0, 1
in [78, 182]; so aqi > 150 is possible only for Dec, Jan and Feb, and
`getWeatherRecommendations` emits the air-pollution warning on such a forecast
only if the current-month index is 11, 0 or 1. -/
theorem aqi_ranges_by_season (M : JSMath) (random : ℕ → ℚ)
    (hr : ∀ i, i < 12 → 0 ≤ random i ∧ random i < 1) (c : ℕ)
    (currentData : CurrentData) (coords : Coords) :
    (∀ (i : ℕ) (m : MonthOutlook),
      (formatMonthlyWeather M random c currentData coords).monthlyData[i]? = some m →
        ((5 ≤ i ∧ i ≤ 8) → 36 ≤ m.aqi ∧ m.aqi ≤ 84) ∧
        (((2 ≤ i ∧ i ≤ 4) ∨ (9 ≤ i ∧ i ≤ 10)) → 60 ≤ m.aqi ∧ m.aqi ≤ 140) ∧
        ((i = 11 ∨ i = 0 ∨ i = 1) → 78 ≤ m.aqi ∧ m.aqi ≤ 182) ∧
        (m.aqi > 150 → (i = 11 ∨ i = 0 ∨ i = 1) ∧
          (m.month = "Dec" ∨ m.month = "Jan" ∨ m.month = "Feb"))) ∧
    (pollutionWarning ∈
        getWeatherRecommendations (formatMonthlyWeather M random c currentData coords) →
      c = 11 ∨ c = 0 ∨ c = 1) := by
  have hmonths : ∀ (i : ℕ) (m : MonthOutlook),
      (formatMonthlyWeather M random c currentData coords).monthlyData[i]? = some m →
        ((5 ≤ i ∧ i ≤ 8) → 36 ≤ m.aqi ∧ m.aqi ≤ 84) ∧
        (((2 ≤ i ∧ i ≤ 4) ∨ (9 ≤ i ∧ i ≤ 10)) → 60 ≤ m.aqi ∧ m.aqi ≤ 140) ∧
        ((i = 11 ∨ i = 0 ∨ i = 1) → 78 ≤ m.aqi ∧ m.aqi ≤ 182) ∧
        (m.aqi > 150 → (i = 11 ∨ i = 0 ∨ i = 1) ∧
          (m.month = "Dec" ∨ m.month = "Jan" ∨ m.month = "Feb")) := by
    intro i m him
    have hi := lt_of_getElem?_monthlyData M random c currentData coords i m him
    rw [getElem?_monthlyData M random c currentData coords i hi] at him
    cases him
    rw [monthEntry_aqi, monthEntry_month]
    obtain ⟨hb1, hb2, hb3⟩ := jsRound_baseAqi_bounds i hi (random i) (hr i hi).1 (hr i hi).2
    refine ⟨hb1, hb2, hb3, fun hbig => ?_⟩
    have hwinter : i = 11 ∨ i = 0 ∨ i = 1 := by
      by_contra hnot
      have hcases : (5 ≤ i ∧ i ≤ 8) ∨ ((2 ≤ i ∧ i ≤ 4) ∨ (9 ≤ i ∧ i ≤ 10)) := by omega
      rcases hcases with h | h
      · have := (hb1 h).2
        omega
      · have := (hb2 h).2
        omega
    refine ⟨hwinter, ?_⟩
    rcases hwinter with h | h | h <;> subst h <;> simp [months]
  refine ⟨hmonths, fun hmem => ?_⟩
  by_cases hc : c < 12
  · have hfind := find?_monthlyData M random c hc currentData coords
    rw [pollutionWarning_mem _ _ hfind] at hmem
    exact ((hmonths c _ (getElem?_monthlyData M random c currentData coords c hc)).2.2.2 hmem).1
  · exfalso
    have hnone : (formatMonthlyWeather M random c currentData coords).monthlyData.find?
        (fun m => m.isCurrentMonth) = none := by
      rw [List.find?_eq_none]
      intro m hm
      obtain ⟨month, index, hindex, rfl⟩ := mem_monthlyData M random c currentData coords m hm
      rw [monthEntry_isCurrentMonth]
      have hne : index ≠ c := by omega
      simp [hne]
    rw [getWeatherRecommendations_of_none _ hnone] at hmem
    simp at hmem

theorem aqi_ranges_by_season_witness :
    (∀ i, i < 12 → (0 : ℚ) ≤ (fun _ => 1 / 2 : ℕ → ℚ) i ∧ (fun _ => 1 / 2 : ℕ → ℚ) i < 1) ∧
    (pollutionWarning ∈
        getWeatherRecommendations
          (formatMonthlyWeather sampleMath (fun _ => 1 / 2) 3 sampleData sampleCoords) →
      3 = 11 ∨ 3 = 0 ∨ 3 = 1) :=
  ⟨fun _ _ => by norm_num,
    (aqi_ranges_by_season sampleMath (fun _ => 1 / 2) (fun _ _ => by norm_num) 3
      sampleData sampleCoords).2⟩

/-- C8: with the two HTTP responses as inputs, `getMonthlyWeather` fails with
"Failed to fetch coordinates" when the geocode response is not ok, with
"Location not found" when it is ok and its result list is empty, and with
"Failed to fetch weather data" when geocoding succeeds and the weather
response is not ok; the failure carries the message unchanged and no forecast;
in every other case the result is `formatMonthlyWeather` of the weather body
and of the lat, lon, name and country of the first geocode match. -/
theorem getMonthlyWeather_outcomes (M : JSMath) (random : ℕ → ℚ) (c : ℕ)
    (geoResponse : Response (List GeoMatch)) (response : Response CurrentData) :
    (geoResponse.ok = false →
      getCoordinates geoResponse = Except.error "Failed to fetch coordinates" ∧
      getMonthlyWeather M random c geoResponse response =
        Except.error "Failed to fetch coordinates") ∧
    (geoResponse.ok = true → geoResponse.json = [] →
      getCoordinates geoResponse = Except.error "Location not found" ∧
      getMonthlyWeather M random c geoResponse response = Except.error "Location not found") ∧
    (∀ first rest, geoResponse.ok = true → geoResponse.json = first :: rest →
      getCoordinates geoResponse = Except.ok
        { lat := first.lat, lon := first.lon, name := first.name, country := first.country } ∧
      (response.ok = false →
        getMonthlyWeather M random c geoResponse response =
          Except.error "Failed to fetch weather data") ∧
      (response.ok = true →
        getMonthlyWeather M random c geoResponse response =
          Except.ok (formatMonthlyWeather M random c response.json
            { lat := first.lat, lon := first.lon, name := first.name,
              country := first.country }))) := by
  refine ⟨fun hgeo => ?_, fun hgeo hjson => ?_, fun first rest hgeo hjson => ?_⟩
  · simp [getMonthlyWeather, getCoordinates, hgeo]
  · simp [getMonthlyWeather, getCoordinates, hgeo, hjson]
  · refine ⟨by simp [getCoordinates, hgeo, hjson], fun hresp => ?_, fun hresp => ?_⟩
    · simp [getMonthlyWeather, getCoordinates, hgeo, hjson, hresp]
    · simp [getMonthlyWeather, getCoordinates, hgeo, hjson, hresp]

theorem getMonthlyWeather_outcomes_witness :
    (({ ok := true, json := [] } : Response (List GeoMatch)).ok = true ∧
      ({ ok := true, json := [] } : Response (List GeoMatch)).json = []) ∧
    getMonthlyWeather sampleMath (fun _ => 1 / 2) 3 { ok := true, json := [] }
      { ok := true, json := sampleData } = Except.error "Location not found" :=
  ⟨⟨rfl, rfl⟩,
    ((getMonthlyWeather_outcomes sampleMath (fun _ => 1 / 2) 3 { ok := true, json := [] }
      { ok := true, json := sampleData }).2.1 rfl rfl).2⟩

/-- C2, as stated, fails: at the binary64 reading 0.49999999999999994 the
current month stores minTemp -3 and maxTemp 7, while the exact values
`round(t - 4)` and `round(t + 6)` are -4 and 6: the code rounds `t - 4` and
`t + 6` to binary64 before `Math.round`. -/
theorem current_month_exact_round_fails :
    ∃ m, (formatMonthlyWeather sampleMath (fun _ => 1 / 2) 3 { main := { temp := belowHalf } }
          sampleCoords).monthlyData.find? (fun m => m.isCurrentMonth) = some m ∧
      m.minTemp = -3 ∧ m.maxTemp = 7 ∧
      jsRound (belowHalf - 4) = -4 ∧ jsRound (belowHalf + 6) = 6 ∧
      m.minTemp ≠ jsRound (belowHalf - 4) ∧ m.maxTemp ≠ jsRound (belowHalf + 6) := by
  have hsub : fsub belowHalf 4 = -7 / 2 := by
    unfold fsub
    rw [toDouble_eval (belowHalf - 4) 1 (-7881299347898368) (by norm_num)
      (by norm_num [belowHalf, abs_of_neg]) (by norm_num [belowHalf, abs_of_neg])
      (by norm_num [belowHalf, abs_lt])]
    norm_num
  have hadd : fadd belowHalf 6 = 13 / 2 := by
    unfold fadd
    rw [toDouble_eval (belowHalf + 6) 2 7318349394477056 (by norm_num)
      (by norm_num [belowHalf, abs_of_pos]) (by norm_num [belowHalf, abs_of_pos])
      (by norm_num [belowHalf, abs_lt])]
    norm_num
  have hcur := monthEntry_current sampleMath sampleMath_sin_zero (fun _ => 1 / 2) 3
    { main := { temp := belowHalf } } toDouble_belowHalf sampleCoords (months.getD 3 "")
  have hmin : jsRound (fsub belowHalf 4) = -3 := by
    rw [hsub]
    unfold jsRound
    norm_num [Int.floor_eq_iff]
  have hmax : jsRound (fadd belowHalf 6) = 7 := by
    rw [hadd]
    unfold jsRound
    norm_num [Int.floor_eq_iff]
  have hemin : jsRound (belowHalf - 4) = -4 := by
    unfold jsRound
    norm_num [belowHalf, Int.floor_eq_iff]
  have hemax : jsRound (belowHalf + 6) = 6 := by
    unfold jsRound
    norm_num [belowHalf, Int.floor_eq_iff]
  refine ⟨_, find?_monthlyData sampleMath (fun _ => 1 / 2) 3 (by decide) _ sampleCoords, ?_, ?_,
    hemin, hemax, ?_, ?_⟩
  · rw [hcur.1]; exact hmin
  · rw [hcur.2]; exact hmax
  · rw [hcur.1, hemin]; exact hmin.trans_ne (by decide)
  · rw [hcur.2, hemax]; exact hmax.trans_ne (by decide)

/-- C2, amended: for every binary64 temperature `t` and current-month index
`c` in 0..11, the entry flagged `isCurrentMonth` (the one `find` returns, at
position `c`) has zero phase offset: `minTemp = Math.round(t - 4)` and
`maxTemp = Math.round(t + 6)` with the difference and the sum rounded to
binary64 before `Math.round`; the entry of month `i` is computed with the
offset `sin((i - c) * pi / 6) * 8` evaluated in binary64.  The host fact used
is `Math.sin(0) = 0`. -/
theorem current_month_zero_offset (M : JSMath) (hsin : M.sin 0 = 0) (random : ℕ → ℚ) (c : ℕ)
    (hc : c < 12) (currentData : CurrentData)
    (ht : toDouble currentData.main.temp = currentData.main.temp) (coords : Coords) :
    (∃ m, (formatMonthlyWeather M random c currentData coords).monthlyData.find?
          (fun m => m.isCurrentMonth) = some m ∧
        (formatMonthlyWeather M random c currentData coords).monthlyData[c]? = some m) ∧
    (∀ m ∈ (formatMonthlyWeather M random c currentData coords).monthlyData,
      m.isCurrentMonth = true →
        m.minTemp = jsRound (fsub currentData.main.temp 4) ∧
        m.maxTemp = jsRound (fadd currentData.main.temp 6)) ∧
    (∀ (i : ℕ) (m : MonthOutlook),
      (formatMonthlyWeather M random c currentData coords).monthlyData[i]? = some m →
      m.minTemp =
        jsRound (fsub (fadd currentData.main.temp
          (fmul (M.sin (fdiv (fmul (fsub (i : ℚ) (c : ℚ)) M.PI) 6)) 8)) 4) ∧
      m.maxTemp =
        jsRound (fadd (fadd currentData.main.temp
          (fmul (M.sin (fdiv (fmul (fsub (i : ℚ) (c : ℚ)) M.PI) 6)) 8)) 6)) := by
  refine ⟨⟨_, find?_monthlyData M random c hc currentData coords,
    getElem?_monthlyData M random c currentData coords c hc⟩, ?_, ?_⟩
  · intro m hm hflag
    obtain ⟨month, index, -, rfl⟩ := mem_monthlyData M random c currentData coords m hm
    rw [monthEntry_isCurrentMonth] at hflag
    have hic : index = c := of_decide_eq_true hflag
    subst hic
    exact monthEntry_current M hsin random index currentData ht coords month
  · intro i m him
    have hi := lt_of_getElem?_monthlyData M random c currentData coords i m him
    rw [getElem?_monthlyData M random c currentData coords i hi] at him
    cases him
    exact ⟨rfl, rfl⟩

theorem current_month_zero_offset_witness :
    sampleMath.sin 0 = 0 ∧ 3 < 12 ∧ toDouble sampleData.main.temp = sampleData.main.temp ∧
    (∀ m ∈ (formatMonthlyWeather sampleMath (fun _ => 1 / 2) 3 sampleData
        sampleCoords).monthlyData,
      m.isCurrentMonth = true →
        m.minTemp = jsRound (fsub sampleData.main.temp 4) ∧
        m.maxTemp = jsRound (fadd sampleData.main.temp 6)) :=
  ⟨sampleMath_sin_zero, by decide, toDouble_twenty_five,
    (current_month_zero_offset sampleMath sampleMath_sin_zero (fun _ => 1 / 2) 3
      (by decide) sampleData toDouble_twenty_five sampleCoords).2.1⟩

/-- C9, as stated, fails: at the binary64 reading 3.4999999999999996 the
current month stores minTemp -1 and maxTemp 10, eleven apart: `t - 4` is the
binary64 value -0.5000000000000004 and `t + 6` rounds to the binary64 value
9.5 before `Math.round`. -/
theorem spread_of_eleven :
    ∃ m, (formatMonthlyWeather sampleMath (fun _ => 1 / 2) 3
          { main := { temp := belowThreeAndHalf } } sampleCoords).monthlyData[3]? = some m ∧
      m.minTemp = -1 ∧ m.maxTemp = 10 ∧ m.maxTemp ≠ m.minTemp + 10 := by
  have hsub : fsub belowThreeAndHalf 4 = -1125899906842625 / 2251799813685248 := by
    unfold fsub
    have := toDouble_dyadic (-1125899906842625) 51 (by norm_num) (by norm_num [abs_of_neg])
    norm_num [belowThreeAndHalf] at this ⊢
    exact this
  have hadd : fadd belowThreeAndHalf 6 = 19 / 2 := by
    unfold fadd
    rw [toDouble_eval (belowThreeAndHalf + 6) 3 5348024557502464 (by norm_num)
      (by norm_num [belowThreeAndHalf, abs_of_pos]) (by norm_num [belowThreeAndHalf, abs_of_pos])
      (by norm_num [belowThreeAndHalf, abs_lt])]
    norm_num
  have hcur := monthEntry_current sampleMath sampleMath_sin_zero (fun _ => 1 / 2) 3
    { main := { temp := belowThreeAndHalf } } toDouble_belowThreeAndHalf sampleCoords
    (months.getD 3 "")
  have hmin : jsRound (fsub belowThreeAndHalf 4) = -1 := by
    rw [hsub]
    unfold jsRound
    norm_num [Int.floor_eq_iff]
  have hmax : jsRound (fadd belowThreeAndHalf 6) = 10 := by
    rw [hadd]
    unfold jsRound
    norm_num [Int.floor_eq_iff]
  refine ⟨_, getElem?_monthlyData sampleMath (fun _ => 1 / 2) 3 _ sampleCoords 3 (by decide),
    ?_, ?_, ?_⟩
  · rw [hcur.1]; exact hmin
  · rw [hcur.2]; exact hmax
  · rw [hcur.1, hcur.2, hmin, hmax]; decide

/-- C9, amended: for every clock month and random samples, the months produced
by `formatMonthlyWeather` from a temperature of magnitude at most `2 ^ 50`
with a host sine of magnitude at most 1 satisfy
`minTemp + 9 <= maxTemp <= minTemp + 11` (the two sums are rounded to binary64
separately before `Math.round`); and for every temperature and host,
`getWeatherRecommendations` on such a forecast never emits both the heat
advisory and the cold advisory, so it returns at most 3 advisories, never
all 4. -/
theorem formatMonthlyWeather_spread (M : JSMath) (random : ℕ → ℚ) (c : ℕ)
    (currentData : CurrentData) (coords : Coords) :
    ((∀ y, |M.sin y| ≤ 1) → |currentData.main.temp| ≤ 2 ^ 50 →
      ∀ m ∈ (formatMonthlyWeather M random c currentData coords).monthlyData,
        m.minTemp + 9 ≤ m.maxTemp ∧ m.maxTemp ≤ m.minTemp + 11) ∧
    ¬ (heatInfo ∈ getWeatherRecommendations (formatMonthlyWeather M random c currentData coords) ∧
       coldInfo ∈ getWeatherRecommendations (formatMonthlyWeather M random c currentData coords)) ∧
    (getWeatherRecommendations (formatMonthlyWeather M random c currentData coords)).length ≤ 3 ∧
    getWeatherRecommendations (formatMonthlyWeather M random c currentData coords) ≠
      [pollutionWarning, heatInfo, monsoonInfo, coldInfo] := by
  refine ⟨?_, ?_⟩
  · intro hsin ht m hm
    obtain ⟨month, index, -, rfl⟩ := mem_monthlyData M random c currentData coords m hm
    exact spread_bounds _ (abs_fadd_le _ _ ht (abs_tempVariation_le _ (hsin _)))
  rcases hfind : (formatMonthlyWeather M random c currentData coords).monthlyData.find?
      (fun m => m.isCurrentMonth) with _ | cur
  · rw [getWeatherRecommendations_of_none _ hfind]
    simp
  · have hexcl : 35 < cur.maxTemp → 10 ≤ cur.minTemp := by
      obtain ⟨month, index, -, rfl⟩ := mem_monthlyData M random c currentData coords cur
        (List.mem_of_find?_eq_some hfind)
      exact heat_excludes_cold _
    rw [getWeatherRecommendations_of_find _ cur hfind]
    have hne : pollutionWarning ≠ heatInfo ∧ pollutionWarning ≠ monsoonInfo ∧
        pollutionWarning ≠ coldInfo ∧ heatInfo ≠ monsoonInfo ∧ heatInfo ≠ coldInfo ∧
        monsoonInfo ≠ coldInfo := by decide
    obtain ⟨n12, n13, n14, n23, n24, n34⟩ := hne
    by_cases h1 : cur.aqi > 150 <;> by_cases h2 : cur.maxTemp > 35 <;>
      by_cases h3 : cur.icon = "rain" <;> by_cases h4 : cur.minTemp < 10 <;>
      simp [h1, h2, h3, h4, n12, n13, n14, n23, n24, n34, n12.symm, n13.symm, n14.symm,
        n23.symm, n24.symm, n34.symm] <;>
      omega

theorem formatMonthlyWeather_spread_witness :
    (∀ y, |sampleMath.sin y| ≤ 1) ∧ |sampleData.main.temp| ≤ 2 ^ 50 ∧
    ∀ m ∈ (formatMonthlyWeather sampleMath (fun _ => 1 / 2) 3 sampleData
        sampleCoords).monthlyData,
      m.minTemp + 9 ≤ m.maxTemp ∧ m.maxTemp ≤ m.minTemp + 11 :=
  ⟨sampleMath_sin_abs_le, by norm_num [sampleData, abs_of_pos],
    (formatMonthlyWeather_spread sampleMath (fun _ => 1 / 2) 3 sampleData sampleCoords).1
      sampleMath_sin_abs_le (by norm_num [sampleData, abs_of_pos])⟩

/-- C7, as stated, fails: with the binary64 sample 0.6971153846153846 the
base value is 115.76923076923077 and its binary64 product with 1.3 is exactly
150.5, so January stores aqi 151, while `round(b * 1.3)` in exact arithmetic
is 150. -/
theorem aqi_exact_product_fails :
    (0 ≤ sampleR ∧ sampleR < 1) ∧
    ∃ m, (formatMonthlyWeather sampleMath (fun _ => sampleR) 3 sampleData
          sampleCoords).monthlyData[0]? = some m ∧
      m.aqi = 151 ∧ jsRound ((60 + sampleR * 80) * aqiMultiplier 0) = 150 ∧
      m.aqi ≠ jsRound ((60 + sampleR * 80) * aqiMultiplier 0) := by
  have hmul : fmul sampleR 80 = 7848821465970215 / 140737488355328 := by
    unfold fmul
    have := toDouble_dyadic 7848821465970215 47 (by norm_num) (by norm_num [abs_of_pos])
    norm_num [sampleR] at this ⊢
    exact this
  have hbase : fadd 60 (fmul sampleR 80) = 2036633845911237 / 17592186044416 := by
    rw [hmul]
    unfold fadd
    rw [toDouble_eval_of _ 6 8146535383644948 (by norm_num) (by norm_num [abs_of_pos])
      (by norm_num [abs_of_pos])
      (roundHalfEven_tie_up _ 8146535383644948 (by norm_num) (by decide))]
    norm_num
  have hprod : fmul (2036633845911237 / 17592186044416) (toDouble 1.3) = 301 / 2 := by
    rw [toDouble_thirteen_tenths]
    unfold fmul
    rw [toDouble_eval _ 7 5295247999369216 (by norm_num) (by norm_num [abs_of_pos])
      (by norm_num [abs_of_pos]) (by norm_num [abs_lt])]
    norm_num
  have haqi : jsRound (baseAqi 0 sampleR) = 151 := by
    have hb : baseAqi 0 sampleR = fmul (fadd 60 (fmul sampleR 80)) (toDouble 1.3) := by
      simp [baseAqi]
    rw [hb, hbase, hprod]
    unfold jsRound
    norm_num [Int.floor_eq_iff]
  have hexact : jsRound ((60 + sampleR * 80) * aqiMultiplier 0) = 150 := by
    unfold jsRound
    norm_num [sampleR, aqiMultiplier, Int.floor_eq_iff]
  refine ⟨⟨by norm_num [sampleR], by norm_num [sampleR]⟩, _,
    getElem?_monthlyData sampleMath (fun _ => sampleR) 3 sampleData sampleCoords 0 (by decide),
    ?_, hexact, ?_⟩
  · rw [monthEntry_aqi]; exact haqi
  · rw [monthEntry_aqi, haqi, hexact]; decide

/-- C7, amended: for every month index `i` in 0..11 and every sample `r` in
[0, 1), with the base value `b = 60 + r * 80` computed in binary64, which lies
in [60, 140], the aqi stored for month `i` is `Math.round` of the binary64
product of `b` and the binary64 constant 0.6 for `i` in 5..8, of `b` and the
binary64 constant 1.3 for `i` in 11, 0, 1, and of `b` itself otherwise; the two
multipliers are never both applied to one month, and the result is a
non-negative integer. -/
theorem aqi_is_rounded_scaled_sample (M : JSMath) (random : ℕ → ℚ) (c : ℕ)
    (currentData : CurrentData) (coords : Coords) (i : ℕ) (hi : i < 12)
    (h0 : 0 ≤ random i) (h1 : random i < 1) :
    ∃ m, (formatMonthlyWeather M random c currentData coords).monthlyData[i]? = some m ∧
      (60 ≤ fadd 60 (fmul (random i) 80) ∧ fadd 60 (fmul (random i) 80) ≤ 140) ∧
      m.aqi = jsRound (scaledAqi i (fadd 60 (fmul (random i) 80))) ∧
      ¬ ((i ≥ 5 ∧ i ≤ 8) ∧ (i ≥ 11 ∨ i ≤ 1)) ∧
      0 ≤ m.aqi := by
  refine ⟨_, getElem?_monthlyData M random c currentData coords i hi,
    base_bounds (random i) h0 h1, ?_, by omega, ?_⟩
  · rw [monthEntry_aqi]
    interval_cases i <;> simp [baseAqi, scaledAqi]
  · rw [monthEntry_aqi]
    have hb := jsRound_baseAqi_bounds i hi (random i) h0 h1
    have hcases : (5 ≤ i ∧ i ≤ 8) ∨ ((2 ≤ i ∧ i ≤ 4) ∨ (9 ≤ i ∧ i ≤ 10)) ∨
        (i = 11 ∨ i = 0 ∨ i = 1) := by omega
    rcases hcases with h | h | h
    · have := (hb.1 h).1
      omega
    · have := (hb.2.1 h).1
      omega
    · have := (hb.2.2 h).1
      omega

theorem aqi_is_rounded_scaled_sample_witness :
    6 < 12 ∧ (0 : ℚ) ≤ (fun _ => 1 / 2 : ℕ → ℚ) 6 ∧ (fun _ => 1 / 2 : ℕ → ℚ) 6 < 1 ∧
    ∃ m, (formatMonthlyWeather sampleMath (fun _ => 1 / 2) 3 sampleData
        sampleCoords).monthlyData[6]? = some m ∧
      m.aqi = jsRound (scaledAqi 6 (fadd 60 (fmul ((fun _ => 1 / 2 : ℕ → ℚ) 6) 80))) :=
  ⟨by decide, by norm_num, by norm_num,
    (aqi_is_rounded_scaled_sample sampleMath (fun _ => 1 / 2) 3 sampleData sampleCoords 6
      (by decide) (by norm_num) (by norm_num)).imp fun _ h => ⟨h.1, h.2.2.1⟩⟩

end WeatherService
